import Mathlib

/-!
Shallow embedding of the `rearrange_viz` layout engine
(`scripts/rearrange_viz/entities/{scene,room,object}.py`).

Geometry is modelled over `ℚ` (the Python code uses floats but all the
layout arithmetic is exact field arithmetic: `+ - * / max abs`).
Python lists become `List`, `None`-able fields become `Option`,
mutation becomes explicit state passing (functions return the updated
record), and code paths that raise become `Except`/`Option` results.

The `Receptacle` class is an external collaborator of the specified core
(it is not part of the three source files); it is modelled from the spec:
it exposes `width`, placeholder anchors, placeholder flags, and a
`new_top_item_position` stacking cursor that `plot` resets
deterministically from the plotted position.
-/

namespace RearrangeViz

/-! ## Python string helpers (modelled on `List Char`)

`String.data` of a literal reduces in the kernel, so all string
processing is done on `List Char`. -/

/-- Python `s.split()` (whitespace split, empty words dropped; the inputs
we model use only ordinary spaces). -/
def pySplit (cs : List Char) : List (List Char) :=
  (cs.foldr
    (fun c acc =>
      if c = ' ' then [] :: acc
      else
        match acc with
        | [] => [[c]]
        | w :: ws => (c :: w) :: ws)
    []).filter (fun w => !w.isEmpty)

/-- Python `s.split(sep)` for a one-character separator: keeps empty
pieces, so `"a_".split("_") = ["a", ""]`. -/
def pySplitOn (sep : Char) (cs : List Char) : List (List Char) :=
  cs.foldr
    (fun c acc =>
      if c = sep then [] :: acc
      else
        match acc with
        | [] => [[c]]
        | w :: ws => (c :: w) :: ws)
    [[]]

/-- Python `s.strip(c)`: removes `c` from both ends. -/
def pyStrip (c : Char) (cs : List Char) : List Char :=
  ((cs.dropWhile (· = c)).reverse.dropWhile (· = c)).reverse

/-- Python `a in b` for strings: `a` occurs as a contiguous substring of
`b` (the empty string is a substring of everything). -/
def pySubstr (a b : List Char) : Bool :=
  (List.range (b.length + 1)).any (fun i => List.isPrefixOf a (b.drop i))

/-! ## Configuration records (`config.room`, `config.object`) -/

structure ObjectConfig where
  width : ℚ
  height : ℚ
  text_margin : ℚ
deriving DecidableEq

structure RoomConfig where
  min_width : ℚ
  min_width_per_object : ℚ
  left_pad : ℚ
  right_pad : ℚ
  horizontal_margin : ℚ
  vertical_margin : ℚ
  full_height : ℚ
  half_height : ℚ
  bottom_pad : ℚ
  top_pad : ℚ
  receptacle_horizontal_margin_fraction : ℚ
  object_horizontal_margin_fraction : ℚ
  objects_height : ℚ
  placeholder_height_if_full : ℚ
  placeholder_height_if_half : ℚ
deriving DecidableEq

structure Config where
  room : RoomConfig
  object : ObjectConfig
deriving DecidableEq

/-! ## Entities -/

/-- `Object` (object.py). `width`/`height` come from the config
(`Object.width` is a property returning `config.width`), so they are not
stored per object. `center_position` starts `None` and is set by `plot`.
Note that `Object.plot` computes a label anchor `text_position` only as
a local variable (object.py lines 107-110) and never stores it on the
object; the object therefore has no stored text anchor. -/
structure Object where
  object_id : String
  is_on_floor : Bool
  center_position : Option (ℚ × ℚ)
deriving DecidableEq

/-- Modelled from the spec: `Receptacle` is an external collaborator
exposing `width`, a top and a center placeholder anchor, two placeholder
flags, and the `new_top_item_position` stacking cursor. -/
structure Receptacle where
  receptacle_id : String
  width : ℚ
  height : ℚ
  plot_top_placeholder : Bool
  plot_center_placeholder : Bool
  top_placeholder_position : Option (ℚ × ℚ)
  center_placeholder_position : Option (ℚ × ℚ)
  new_top_item_position : Option (ℚ × ℚ)
deriving DecidableEq

/-- `Room` (room.py): identifiers, children, layout flags and the
mutable geometry fields recomputed by `init_size`/`plot`.
`object_to_recep` is the Python dict `object_to_recep`, modelled as an
association list. -/
structure Room where
  room_id : String
  receptacles : List Receptacle
  objects : Option (List Object)
  use_full_height : Bool
  in_proposition : Bool
  plot_placeholder : Bool
  object_to_recep : Option (List (String × String))
  room_width : ℚ
  width : ℚ
  room_height : ℚ
  height : ℚ
  center_position : Option (ℚ × ℚ)
deriving DecidableEq

/-- Python truthiness of the `objects` field: `if self.objects:` is true
exactly for a present, non-empty list. -/
def objectsTruthy : Option (List Object) → Bool
  | none => false
  | some l => !l.isEmpty

/-! ## Room construction (`Room.__init__` + `Room.init_size`) -/

/-- Sum of `object.width` over a list of objects (each `Object.width`
is `config.object.width`), written as the source's accumulation loop. -/
def objectWidthsAll (cfg : Config) (objs : List Object) : ℚ :=
  objs.foldl (fun acc _ => acc + cfg.object.width) 0

/-- `Room.init_size` (room.py lines 49-79). -/
def initSize (cfg : Config) (r : Room) : Room :=
  let min_width := cfg.room.min_width
  let min_width :=
    if objectsTruthy r.objects then
      max min_width
        (objectWidthsAll cfg (r.objects.getD []) * cfg.room.min_width_per_object)
    else min_width
  let total_receptacle_width :=
    max min_width ((r.receptacles.map Receptacle.width).sum)
  let new_room_width :=
    total_receptacle_width + cfg.room.left_pad + cfg.room.right_pad
  let new_room_height :=
    (if r.use_full_height then cfg.room.full_height else cfg.room.half_height)
      + cfg.room.bottom_pad + cfg.room.top_pad
  { r with
    room_width := new_room_width
    width := new_room_width + 2 * cfg.room.horizontal_margin
    room_height := new_room_height
    height := new_room_height + 2 * cfg.room.vertical_margin }

/-- `Room.__init__` (room.py lines 14-47): `use_full_height` is forced
true when the room has any objects, then `init_size` runs. -/
def mkRoom (cfg : Config) (room_id : String) (receptacles : List Receptacle)
    (objects : Option (List Object)) (use_full_height : Bool)
    (in_proposition : Bool) (object_to_recep : Option (List (String × String))) :
    Room :=
  let ufh := if objectsTruthy objects then true else use_full_height
  initSize cfg
    { room_id := room_id
      receptacles := receptacles
      objects := objects
      use_full_height := ufh
      in_proposition := in_proposition
      plot_placeholder := false
      object_to_recep := object_to_recep
      room_width := 0
      width := 0
      room_height := 0
      height := 0
      center_position := none }

/-! ## Room relevance scoring and sorting (`Scene.sort_rooms`) -/

/-- The phrase checked against each keyword:
`" ".join(the_id.split("_")[:-1])`. -/
def phraseOf (the_id : String) : List Char :=
  List.intercalate [' '] ((pySplitOn '_' the_id.data).dropLast)

/-- Keyword list: `[word.lower().strip(".") for word in instruction.split()]`. -/
def keywordsOf (instruction : String) : List (List Char) :=
  (pySplit instruction.data).map (fun w => pyStrip '.' (w.map Char.toLower))

/-- `sum(phrase in keyword for keyword in keywords)`: the count of
keywords that contain the phrase as a substring. -/
def substrScore (phrase : List Char) (keywords : List (List Char)) : ℕ :=
  keywords.countP (fun k => pySubstr phrase k)

/-- Relevance score of one room (scene.py lines 54-76): room phrase plus
all receptacle phrases plus, when `objects` is truthy, all object
phrases, each counted against the instruction keywords. -/
def roomRelevance (instruction : String) (room : Room) : ℕ :=
  let keywords := keywordsOf instruction
  let sc := substrScore (phraseOf room.room_id) keywords
  let sc := sc +
    (room.receptacles.map
      (fun rc => substrScore (phraseOf rc.receptacle_id) keywords)).sum
  if objectsTruthy room.objects then
    sc + ((room.objects.getD []).map
      (fun o => substrScore (phraseOf o.object_id) keywords)).sum
  else sc

/-- Stable descending insertion: the new element is placed after every
element whose key is `≥` its own only when strictly greater keys demand
it; with our orientation, `x` stops in front of the first element whose
key is `≤ key x`, so earlier-listed elements win ties. -/
def insertDescBy (key : Room → ℕ) (x : Room) : List Room → List Room
  | [] => [x]
  | y :: ys => if key y ≤ key x then x :: y :: ys else y :: insertDescBy key x ys

/-- Stable sort, descending by key: the behaviour of Python
`sorted(rooms, key=score, reverse=True)` (Timsort is stable and
`reverse=True` does not reorder ties). -/
def sortDescBy (key : Room → ℕ) : List Room → List Room
  | [] => []
  | x :: xs => insertDescBy key x (sortDescBy key xs)

/-- `Scene.sort_rooms` (scene.py lines 34-85): empty instruction returns
the list unchanged; otherwise a stable descending sort by relevance. -/
def sort_rooms (rooms : List Room) (instruction : String) : List Room :=
  if instruction = "" then rooms
  else sortDescBy (roomRelevance instruction) rooms

/-! ## Width redistribution (`Scene.redistribute_target_width_to_rooms`) -/

/-- scene.py lines 249-261. -/
def redistribute_target_width_to_rooms (rooms_to_plot : List Room)
    (target_width : ℚ) : List ℚ :=
  let total_width := (rooms_to_plot.map Room.width).sum
  let redistribution_factor := target_width / total_width
  rooms_to_plot.map (fun room => room.width * redistribution_factor)

/-! ## Arrow geometry (`Scene.add_arrow`, scene.py lines 180-233) -/

/-- Control point of the quadratic Bezier:
`((x0+x1)/2 + dy/2, (y0+y1)/2 + abs(dx)/2)`. -/
def arrowCtrl (p0 p1 : ℚ × ℚ) : ℚ × ℚ :=
  ((p0.1 + p1.1) / 2 + (p1.2 - p0.2) / 2,
   (p0.2 + p1.2) / 2 + |p1.1 - p0.1| / 2)

/-- Curve derivative at `t = 1` exactly as written in the source:
`2*(1-t)*(ctrl-p0) + 2*t*(p1-ctrl)` with `t = 1`. -/
def arrowDeriv (p0 p1 : ℚ × ℚ) : ℚ × ℚ :=
  let c := arrowCtrl p0 p1
  (2 * (1 - 1) * (c.1 - p0.1) + 2 * 1 * (p1.1 - c.1),
   2 * (1 - 1) * (c.2 - p0.2) + 2 * 1 * (p1.2 - c.2))

/-- Squared Euclidean norm of the tangent; the source divides the tangent
by `np.linalg.norm(arrow_dir)` (the square root of this) with no guard
against it being zero. -/
def arrowDerivNormSq (p0 p1 : ℚ × ℚ) : ℚ :=
  (arrowDeriv p0 p1).1 ^ 2 + (arrowDeriv p0 p1).2 ^ 2

/-- The normalized direction, with the Euclidean norm value `n` passed
explicitly (the norm itself is irrational in general; a valid `n`
satisfies `n ^ 2 = arrowDerivNormSq p0 p1` and `n ≥ 0`). -/
def arrowHeadDir (p0 p1 : ℚ × ℚ) (n : ℚ) : ℚ × ℚ :=
  ((arrowDeriv p0 p1).1 / n, (arrowDeriv p0 p1).2 / n)

/-- Arrowhead base: `head_pos = (x1, y1) - arrow_dir * head_length`. -/
def arrowHeadPos (p0 p1 : ℚ × ℚ) (n L : ℚ) : ℚ × ℚ :=
  (p1.1 - (arrowHeadDir p0 p1 n).1 * L,
   p1.2 - (arrowHeadDir p0 p1 n).2 * L)

/-! ## Receptacle row placement inside a room (room.py lines 189-205) -/

/-- The even-spacing value:
`((room_width - frac*2*room_width) - sum_widths) / (num + 1)`. -/
def receptacleSpacing (cfg : Config) (room_width : ℚ) (widths : List ℚ) : ℚ :=
  ((room_width
      - cfg.room.receptacle_horizontal_margin_fraction * 2 * room_width)
    - widths.sum) / ((widths.length : ℚ) + 1)

/-- The source loop: emit the current offset, then advance by
`width + spacing`. -/
def offsetsAux (spacing : ℚ) : ℚ → List ℚ → List ℚ
  | _, [] => []
  | offset, w :: ws => offset :: offsetsAux spacing (offset + w + spacing) ws

/-- Receptacle x-positions produced by the room's placement loop, starting
from the room's left content edge `newPosX` (the source's
`new_position[0]`). -/
def receptacleOffsets (cfg : Config) (newPosX room_width : ℚ)
    (widths : List ℚ) : List ℚ :=
  let spacing := receptacleSpacing cfg room_width widths
  offsetsAux spacing
    (newPosX + spacing
      + cfg.room.receptacle_horizontal_margin_fraction * room_width)
    widths

/-- Spec-side statement of the same placement (spec sections 4.2 and 8):
`spacing = (room_width*(1 - 2*margin_fraction) - sum_widths)/(count+1)`,
receptacle `i` starts at
`room_left + margin_fraction*room_width + (i+1)*spacing + sum of the
previous widths`. -/
def specReceptacleOffsets (cfg : Config) (newPosX room_width : ℚ)
    (widths : List ℚ) : List ℚ :=
  let spacing :=
    (room_width * (1 - 2 * cfg.room.receptacle_horizontal_margin_fraction)
      - widths.sum) / ((widths.length : ℚ) + 1)
  (List.range widths.length).map
    (fun (i : ℕ) =>
      newPosX + cfg.room.receptacle_horizontal_margin_fraction * room_width
        + ((i : ℚ) + 1) * spacing + ((widths.take i).sum))

/-! ## Child plotting (`Object.plot`, spec-modelled `Receptacle.plot`) -/

/-- `Object.plot` (object.py lines 51-125): sets
`center_position = position + (width/2, height/2)`.  The wrapped label
is drawn at `(center_x, center_y + text_margin)` but that `text_position`
is a local variable only — no attribute is stored for it. -/
def plotO (cfg : Config) (obj : Object) (pos : ℚ × ℚ) : Object :=
  let center := (pos.1 + cfg.object.width / 2, pos.2 + cfg.object.height / 2)
  { obj with center_position := some center }

/-- Modelled from the spec: `Receptacle.plot` places the receptacle at
`pos`, setting its top and center placeholder anchors and resetting the
`new_top_item_position` stacking cursor to the top of the receptacle,
all deterministic functions of `pos`. -/
def plotR (rc : Receptacle) (pos : ℚ × ℚ) : Receptacle :=
  { rc with
    top_placeholder_position := some (pos.1 + rc.width / 2, pos.2 + rc.height)
    center_placeholder_position :=
      some (pos.1 + rc.width / 2, pos.2 + rc.height / 2)
    new_top_item_position := some (pos.1 + rc.width / 2, pos.2 + rc.height) }

/-- The receptacle placement loop of `Room.plot` (room.py lines 201-205):
plot each receptacle at the running offset, advance by
`receptacle.width + spacing`. -/
def plotReceptacles (spacing y : ℚ) : ℚ → List Receptacle → List Receptacle
  | _, [] => []
  | offset, rc :: rest =>
    plotR rc (offset, y) :: plotReceptacles spacing y (offset + rc.width + spacing) rest

/-! ## Object placement inside a room (room.py lines 232-273) -/

/-- Whether the `object_to_recep` dict maps this object id. -/
def mappedRecep (o2r : Option (List (String × String))) (object_id : String) :
    Option String :=
  match o2r with
  | none => none
  | some m => m.lookup object_id

/-- Sum of the widths of objects not mapped to a receptacle
(room.py lines 149-158 and 235-240). -/
def objectWidthsUnmapped (cfg : Config) (o2r : Option (List (String × String)))
    (objs : List Object) : ℚ :=
  objs.foldl
    (fun acc obj =>
      match mappedRecep o2r obj.object_id with
      | some _ => acc
      | none => acc + cfg.object.width)
    0

/-- Count of objects not mapped to a receptacle (room.py lines 235-240). -/
def countUnmapped (o2r : Option (List (String × String)))
    (objs : List Object) : ℕ :=
  objs.foldl
    (fun acc obj =>
      match mappedRecep o2r obj.object_id with
      | some _ => acc
      | none => acc + 1)
    0

/-- The object placement loop of `Room.plot` (room.py lines 258-273):
unmapped objects are placed at the running offset (advancing by
`width + spacing`); for an object mapped to a receptacle the loop looks
up the receptacle, reads its `new_top_item_position` cursor, plots the
object there, and then reads `obj.text_position` (room.py line 273) —
an attribute `Object.plot` computes only as a local and never stores
(object.py lines 107-110) — so the stacking path raises
`AttributeError` unconditionally, modelled by `none`. -/
def plotObjects (cfg : Config) (o2r : Option (List (String × String)))
    (spacing y : ℚ) : ℚ → List Receptacle → List Object →
    Option (List Object × List Receptacle)
  | _, recs, [] => some ([], recs)
  | offset, recs, obj :: rest =>
    match mappedRecep o2r obj.object_id with
    | none =>
      let obj1 := plotO cfg obj (offset, y)
      (plotObjects cfg o2r spacing y (offset + cfg.object.width + spacing) recs
        rest).map (fun p => (obj1 :: p.1, p.2))
    | some _ => none

/-! ## `Room.plot` (room.py lines 123-334) -/

/-- `Room.plot` as a state transformer: returns the room with its
geometry fields and all child anchors recomputed, or `none` on the
crashing mapped-object path.  Drawing calls (rectangles, labels, axis
limits) have no modelled effect. -/
def roomPlot (cfg : Config) (r : Room) (position : ℚ × ℚ)
    (target_width : Option ℚ) : Option Room :=
  let new_position :=
    (position.1 + cfg.room.horizontal_margin,
     position.2 + cfg.room.vertical_margin)
  let min_width := cfg.room.min_width
  let min_width :=
    if objectsTruthy r.objects then
      max min_width
        (objectWidthsUnmapped cfg r.object_to_recep (r.objects.getD [])
          * cfg.room.min_width_per_object)
    else min_width
  let minimum_room_width :=
    max min_width ((r.receptacles.map Receptacle.width).sum)
  let base_room_width :=
    minimum_room_width + cfg.room.left_pad + cfg.room.right_pad
  let extra_horizontal_pad :=
    match target_width with
    | none => 0
    | some tw =>
      max 0 ((tw - base_room_width - 2 * cfg.room.horizontal_margin) / 2)
  let the_room_width := base_room_width + 2 * extra_horizontal_pad
  let new_receptacle_width := (r.receptacles.map Receptacle.width).sum
  let spacing :=
    ((the_room_width
        - cfg.room.receptacle_horizontal_margin_fraction * 2 * the_room_width)
      - new_receptacle_width) / ((r.receptacles.length : ℚ) + 1)
  let recs1 :=
    plotReceptacles spacing (new_position.2 + cfg.room.bottom_pad)
      (new_position.1 + spacing
        + cfg.room.receptacle_horizontal_margin_fraction * the_room_width)
      r.receptacles
  let the_width := the_room_width + 2 * cfg.room.horizontal_margin
  let full_room_height :=
    cfg.room.full_height + cfg.room.bottom_pad + cfg.room.top_pad
  let the_center :=
    (new_position.1 + the_room_width / 2,
     new_position.2 + cfg.room.bottom_pad
       + (if r.use_full_height then
            cfg.room.placeholder_height_if_full * cfg.room.full_height
          else
            cfg.room.placeholder_height_if_half * cfg.room.half_height))
  if objectsTruthy r.objects then
    let objs := r.objects.getD []
    let total_object_width := objectWidthsUnmapped cfg r.object_to_recep objs
    let num_objects := countUnmapped r.object_to_recep objs
    let ospacing :=
      ((the_room_width
          - cfg.room.object_horizontal_margin_fraction * 2 * the_room_width)
        - total_object_width) / ((num_objects : ℚ) + 1)
    let oy := new_position.2 + cfg.room.bottom_pad
      + cfg.room.full_height * cfg.room.objects_height
    match plotObjects cfg r.object_to_recep ospacing oy
        (new_position.1
          + cfg.room.object_horizontal_margin_fraction * the_room_width
          + ospacing)
        recs1 objs with
    | none => none
    | some (objs1, recs2) =>
      -- `height` is not reassigned on this branch (room.py lines 232-283:
      -- the `else` branch alone updates `self.height`).
      some { r with
        receptacles := recs2
        objects := some objs1
        room_width := the_room_width
        width := the_width
        room_height := full_room_height
        center_position := some the_center }
  else
    let the_room_height :=
      if ¬r.use_full_height then
        cfg.room.half_height + cfg.room.bottom_pad + cfg.room.top_pad
      else full_room_height
    some { r with
      receptacles := recs1
      room_width := the_room_width
      width := the_width
      room_height := the_room_height
      height := the_room_height + 2 * cfg.room.vertical_margin
      center_position := some the_center }

/-! ## Row flushing (`Scene.plot_rooms_linear`) -/

/-- The unconstrained variant's row flush flag update (scene.py lines
314-326): if any room in the flushed row has objects, every room in the
row gets `use_full_height = True`, else every room gets `False`. -/
def setRowUseFullHeight (rooms_to_plot : List Room) : List Room :=
  let rooms_have_objects := rooms_to_plot.any (fun room => objectsTruthy room.objects)
  rooms_to_plot.map
    (fun room =>
      if rooms_have_objects then { room with use_full_height := true }
      else { room with use_full_height := false })

/-- The target-width variant's row flush flag update (scene.py lines
380-392 and 417-429): same flag rule, followed by `init_size` on each
room. -/
def setRowUseFullHeightInit (cfg : Config) (rooms_to_plot : List Room) :
    List Room :=
  let rooms_have_objects := rooms_to_plot.any (fun room => objectsTruthy room.objects)
  rooms_to_plot.map
    (fun room =>
      if rooms_have_objects then initSize cfg { room with use_full_height := true }
      else initSize cfg { room with use_full_height := false })

/-! ## Proposition classification -/

structure PropositionArgs where
  object_names : List String
  receptacle_names : List String
  room_names : List String
  number : ℕ
  entity_handles_a_names_and_types : List (String × String)
  entity_handles_b_names_and_types : List (String × String)
deriving DecidableEq

structure Proposition where
  function_name : String
  args : PropositionArgs
deriving DecidableEq

/-- Accumulators of the classification loop in
`Scene.plot_for_propositions` (scene.py lines 463-497). -/
structure MentionLists where
  mentioned_objs : List String
  on_floor_objs : List String
  mentioned_receps : List (String × String)
  mentioned_rooms : List String
  is_next_tos : List (List (String × String) × List (String × String) × ℕ)
deriving DecidableEq

def exceptIsOk : Except String α → Bool
  | .ok _ => true
  | .error _ => false

/-- The classification loop of `Scene.plot_for_propositions` (scene.py
lines 469-497): `is_on_top`/`is_inside`/`is_in_room`/`is_on_floor`/
`is_next_to` are accumulated; any other tag raises `NotImplementedError`. -/
def classifyPlotAux (acc : MentionLists) :
    List Proposition → Except String MentionLists
  | [] => .ok acc
  | p :: rest =>
    let fn := p.function_name
    if fn = "is_on_top" ∨ fn = "is_inside" then
      classifyPlotAux
        { acc with
          mentioned_objs := acc.mentioned_objs ++ p.args.object_names
          mentioned_receps := acc.mentioned_receps
            ++ (if fn = "is_on_top" then
                  p.args.receptacle_names.map (fun rn => ("is_on_top", rn))
                else [])
            ++ (if fn = "is_inside" then
                  p.args.receptacle_names.map (fun rn => ("is_inside", rn))
                else []) }
        rest
    else if fn = "is_in_room" then
      classifyPlotAux
        { acc with
          mentioned_objs := acc.mentioned_objs ++ p.args.object_names
          mentioned_rooms := acc.mentioned_rooms ++ p.args.room_names }
        rest
    else if fn = "is_on_floor" then
      classifyPlotAux
        { acc with on_floor_objs := acc.on_floor_objs ++ p.args.object_names }
        rest
    else if fn = "is_next_to" then
      classifyPlotAux
        { acc with
          is_next_tos := acc.is_next_tos
            ++ [(p.args.entity_handles_a_names_and_types,
                 p.args.entity_handles_b_names_and_types,
                 p.args.number)] }
        rest
    else
      .error ("Not implemented for function with name: " ++ fn ++ ".")

def classifyPlot (props : List Proposition) : Except String MentionLists :=
  classifyPlotAux ⟨[], [], [], [], []⟩ props

/-- The classification loop on the temporal-constraint path of
`Scene.plot` (scene.py lines 664-685): only
`is_on_top`/`is_inside`/`is_in_room`/`is_on_floor` are accepted;
everything else — including `is_next_to` — raises `NotImplementedError`. -/
def classifyToposortAux (acc : List String × List (String × String) × List String) :
    List Proposition →
    Except String (List String × List (String × String) × List String)
  | [] => .ok acc
  | p :: rest =>
    let fn := p.function_name
    if fn = "is_on_top" ∨ fn = "is_inside" then
      classifyToposortAux
        (acc.1 ++ p.args.object_names,
         acc.2.1
           ++ (if fn = "is_on_top" then
                 p.args.receptacle_names.map (fun rn => ("is_on_top", rn))
               else [])
           ++ (if fn = "is_inside" then
                 p.args.receptacle_names.map (fun rn => ("is_inside", rn))
               else []),
         acc.2.2)
        rest
    else if fn = "is_in_room" then
      classifyToposortAux
        (acc.1 ++ p.args.object_names, acc.2.1, acc.2.2 ++ p.args.room_names)
        rest
    else if fn = "is_on_floor" then
      classifyToposortAux (acc.1 ++ p.args.object_names, acc.2.1, acc.2.2) rest
    else
      .error ("Not implemented for function with name: " ++ fn ++ ".")

def classifyToposort (props : List Proposition) :
    Except String (List String × List (String × String) × List String) :=
  classifyToposortAux ([], [], []) props

/-! ## The flag-reset pass of `Scene.plot_for_propositions`
(scene.py lines 499-510) -/

/-- The loop at scene.py lines 505-510: for every room, clear both
placeholder flags of every receptacle and `is_on_floor` of every object.
The object loop iterates `room.objects` unconditionally, so a room whose
`objects` is `None` raises `TypeError`. -/
def resetFlagsPass : List Room → Except String (List Room)
  | [] => .ok []
  | room :: rest =>
    let receps := room.receptacles.map
      (fun rc =>
        { rc with plot_top_placeholder := false, plot_center_placeholder := false })
    match room.objects with
    | none => .error "TypeError: NoneType object is not iterable"
    | some objs =>
      match resetFlagsPass rest with
      | .error e => .error e
      | .ok rest1 =>
        .ok ({ room with
          receptacles := receps
          objects := some (objs.map (fun o => { o with is_on_floor := false })) }
            :: rest1)

/-- The prefix of `Scene.plot_for_propositions` up to and including the
flag-reset pass: classify the propositions (scene.py lines 469-497), set
each room's `plot_placeholder` (lines 499-503), then reset child flags
(lines 505-510). -/
def plotForPropositionsPre (rooms : List Room) (props : List Proposition) :
    Except String (List Room) :=
  match classifyPlot props with
  | .error e => .error e
  | .ok m =>
    let rooms1 := rooms.map
      (fun room =>
        if room.room_id ∈ m.mentioned_rooms then
          { room with plot_placeholder := true }
        else { room with plot_placeholder := false })
    resetFlagsPass rooms1

/-! ## Concrete instances used in examples and witnesses -/

/-- A concrete configuration with simple rational entries. -/
def cfg0 : Config :=
  { room :=
      { min_width := 100
        min_width_per_object := 1
        left_pad := 10
        right_pad := 10
        horizontal_margin := 5
        vertical_margin := 5
        full_height := 80
        half_height := 40
        bottom_pad := 10
        top_pad := 10
        receptacle_horizontal_margin_fraction := 0
        object_horizontal_margin_fraction := 0
        objects_height := 1/2
        placeholder_height_if_full := 1/2
        placeholder_height_if_half := 1/2 }
    object := { width := 10, height := 10, text_margin := 2 } }

/-- A receptacle with the given id and width, all anchors unset. -/
def bareRecep (the_id : String) (w : ℚ) : Receptacle :=
  { receptacle_id := the_id
    width := w
    height := 0
    plot_top_placeholder := false
    plot_center_placeholder := false
    top_placeholder_position := none
    center_placeholder_position := none
    new_top_item_position := none }

/-- An object with the given id, anchor unset. -/
def bareObj (the_id : String) : Object :=
  { object_id := the_id
    is_on_floor := false
    center_position := none }

/-- A room literal with the given children and `width` field, everything
else zeroed / off. -/
def bareRoom (the_id : String) (receps : List Receptacle)
    (objects : Option (List Object)) (w : ℚ) : Room :=
  { room_id := the_id
    receptacles := receps
    objects := objects
    use_full_height := false
    in_proposition := false
    plot_placeholder := false
    object_to_recep := none
    room_width := 0
    width := w
    room_height := 0
    height := 0
    center_position := none }

/-- The room of the spec's relevance-score example. -/
def kitchenRoom : Room := bareRoom "kitchen_0" [bareRecep "fridge_0" 0] none 0

def bathRoom : Room := bareRoom "bathroom_0" [] none 0

/-- A room as plotted by `roomPlot cfg0 _ (0, 0) none`: used to discharge
the hypotheses of the idempotence and flag-preservation theorems at a
concrete input. -/
def exRoom9 : Room := bareRoom "study_0" [] none 0

/-- The value of `roomPlot cfg0 exRoom9 (0, 0) none`. -/
def exRoom9Plotted : Room :=
  { exRoom9 with
    room_width := 120
    width := 130
    room_height := 60
    height := 70
    center_position := some (65, 35) }

/-- A room with one receptacle and one (unmapped) object. -/
def exRoomFull : Room :=
  bareRoom "den_0" [bareRecep "table_0" 20] (some [bareObj "apple_0"]) 0

/-- The value of `roomPlot cfg0 exRoomFull (0, 0) none`: the receptacle
is placed at `(55, 15)` and the object at `(60, 55)`; the `height` field
keeps its old value because the objects branch never reassigns it. -/
def exRoomFullPlotted : Room :=
  { exRoomFull with
    receptacles := [{ bareRecep "table_0" 20 with
      top_placeholder_position := some (65, 15)
      center_placeholder_position := some (65, 15)
      new_top_item_position := some (65, 15) }]
    objects := some [{ bareObj "apple_0" with
      center_position := some (65, 60) }]
    room_width := 120
    width := 130
    room_height := 100
    center_position := some (65, 35) }

/-- The same room with its object mapped to the receptacle: on this room
`Room.plot` reaches the stacking path and raises. -/
def exMappedRoom : Room :=
  { exRoomFull with object_to_recep := some [("apple_0", "table_0")] }

def bareArgs : PropositionArgs :=
  { object_names := []
    receptacle_names := []
    room_names := []
    number := 1
    entity_handles_a_names_and_types := []
    entity_handles_b_names_and_types := [] }

/-- An `is_next_to` proposition. -/
def nextToProp : Proposition :=
  { function_name := "is_next_to"
    args := { bareArgs with
      entity_handles_a_names_and_types := [("table_0", "receptacle")]
      entity_handles_b_names_and_types := [("chair_0", "receptacle")] } }

/-! ## Static projections used by the idempotence proofs -/

/-- The fields of a receptacle that `plotR` reads or leaves unchanged. -/
def recepStatics (rc : Receptacle) : String × ℚ × ℚ × Bool × Bool :=
  (rc.receptacle_id, rc.width, rc.height,
   rc.plot_top_placeholder, rc.plot_center_placeholder)

/-- The fields of an object that `plotO` reads or leaves unchanged. -/
def objStatics (o : Object) : String × Bool :=
  (o.object_id, o.is_on_floor)

/-! # Theorems -/

/-- C1: for a room list of positive total width,
`redistribute_target_width_to_rooms` returns `room.width * (target /
total)` per room, the results sum exactly to the target, and on two
rooms of width 100 and 200 with target 450 it returns `[150, 300]`. -/
theorem redistribute_width_proportional (rooms : List Room) (t : ℚ)
    (h : 0 < (rooms.map Room.width).sum) :
    (redistribute_target_width_to_rooms rooms t).sum = t ∧
    redistribute_target_width_to_rooms rooms t
      = rooms.map (fun r => r.width * (t / (rooms.map Room.width).sum)) ∧
    redistribute_target_width_to_rooms
        [bareRoom "room_0" [] none 100, bareRoom "room_0" [] none 200] 450
      = [150, 300] := by
  refine ⟨?_, rfl, by norm_num [redistribute_target_width_to_rooms, bareRoom]⟩
  unfold redistribute_target_width_to_rooms
  rw [List.sum_map_mul_right rooms Room.width (t / (rooms.map Room.width).sum)]
  rw [mul_comm, div_mul_cancel₀ t h.ne']

/-- Witness for C1 at the spec's concrete example. -/
theorem redistribute_width_proportional_witness :
    (redistribute_target_width_to_rooms
      [bareRoom "room_0" [] none 100, bareRoom "room_0" [] none 200] 450).sum
      = 450 :=
  (redistribute_width_proportional
    [bareRoom "room_0" [] none 100, bareRoom "room_0" [] none 200] 450
    (by norm_num [bareRoom])).1

/-- Closed form of the receptacle placement loop. -/
theorem offsetsAux_eq (s : ℚ) (ws : List ℚ) : ∀ off : ℚ,
    offsetsAux s off ws = (List.range ws.length).map
      (fun (i : ℕ) => off + (i : ℚ) * s + (ws.take i).sum) := by
  induction ws with
  | nil => intro off; simp [offsetsAux]
  | cons w ws ih =>
    intro off
    rw [offsetsAux, ih, List.length_cons, List.range_succ_eq_map,
      List.map_cons, List.map_map]
    refine congrArg₂ List.cons (by simp) (List.map_congr_left fun i _ => ?_)
    simp only [Function.comp_apply, List.take_succ_cons, List.sum_cons]
    push_cast
    ring

/-- C2: the receptacle placement of `Room.plot` agrees with the spec's
even-spacing formula (first receptacle at
`room_left + spacing + margin_fraction*room_width`, each next at the
previous right edge plus `spacing`), and with receptacles wider than the
room the spacing is negative while positions are still produced. -/
theorem receptacle_row_spacing_spec :
    (∀ cfg newPosX rw ws,
      receptacleOffsets cfg newPosX rw ws = specReceptacleOffsets cfg newPosX rw ws) ∧
    receptacleSpacing cfg0 10 [20] < 0 ∧
    receptacleOffsets cfg0 0 10 [20] = [-5] := by
  refine ⟨fun cfg newPosX rw ws => ?_,
    by norm_num [receptacleSpacing, cfg0],
    by norm_num [receptacleOffsets, receptacleSpacing, offsetsAux, cfg0]⟩
  simp only [receptacleOffsets, specReceptacleOffsets]
  rw [offsetsAux_eq]
  have hs : receptacleSpacing cfg rw ws
      = (rw * (1 - 2 * cfg.room.receptacle_horizontal_margin_fraction) - ws.sum)
        / ((ws.length : ℚ) + 1) := by
    unfold receptacleSpacing
    ring_nf
  rw [hs]
  exact List.map_congr_left fun i _ => by ring

/-- C3: at coinciding anchor points the Bezier tangent computed by
`add_arrow` is the zero vector, whose Euclidean norm is zero; the source
divides by this norm unconditionally (`arrow_dir /= np.linalg.norm(...)`,
scene.py line 217) with no guard branch. -/
theorem arrow_tangent_zero_norm_unguarded :
    ∀ x y : ℚ, arrowDeriv (x, y) (x, y) = (0, 0) ∧
      arrowDerivNormSq (x, y) (x, y) = 0 := by
  intro x y
  constructor
  · simp [arrowDeriv, arrowCtrl]
  · simp [arrowDerivNormSq, arrowDeriv, arrowCtrl]

/-- C7 counterexample: the distinct pair `(0,0)`, `(1,1)` also has a zero
Bezier tangent at `t = 1` (the control point coincides with the
destination when `dy = dx > 0`), so the normalization the claim asserts
for every distinct pair divides by a zero norm here. -/
theorem arrow_tangent_degenerate_distinct_pair :
    (((0 : ℚ), (0 : ℚ))) ≠ (((1 : ℚ), (1 : ℚ))) ∧
    arrowDeriv (0, 0) (1, 1) = (0, 0) ∧
    arrowDerivNormSq (0, 0) (1, 1) = 0 := by
  norm_num [arrowDeriv, arrowCtrl, arrowDerivNormSq]

/-- C7 (amended): for anchor pairs whose tangent `2*(p1 - ctrl)` is
nonzero (equivalently, whose Euclidean norm `n` is nonzero), the control
point and tangent are as the spec states, the direction is a unit
vector, and the arrowhead base plus `direction * head_length` lands
exactly on the destination anchor. -/
theorem arrow_head_terminates_at_destination :
    ∀ (p0 p1 : ℚ × ℚ) (n L : ℚ), n ^ 2 = arrowDerivNormSq p0 p1 → n ≠ 0 →
    arrowCtrl p0 p1 = ((p0.1 + p1.1) / 2 + (p1.2 - p0.2) / 2,
      (p0.2 + p1.2) / 2 + |p1.1 - p0.1| / 2) ∧
    arrowDeriv p0 p1 = (2 * (p1.1 - (arrowCtrl p0 p1).1),
      2 * (p1.2 - (arrowCtrl p0 p1).2)) ∧
    (arrowHeadDir p0 p1 n).1 ^ 2 + (arrowHeadDir p0 p1 n).2 ^ 2 = 1 ∧
    ((arrowHeadPos p0 p1 n L).1 + (arrowHeadDir p0 p1 n).1 * L,
     (arrowHeadPos p0 p1 n L).2 + (arrowHeadDir p0 p1 n).2 * L) = p1 := by
  intro p0 p1 n L hn h0
  obtain ⟨x0, y0⟩ := p0
  obtain ⟨x1, y1⟩ := p1
  refine ⟨rfl, ?_, ?_, ?_⟩
  · simp only [arrowDeriv, Prod.mk.injEq]
    constructor <;> ring
  · simp only [arrowHeadDir]
    field_simp
    rw [hn, arrowDerivNormSq]
  · simp only [arrowHeadPos, arrowHeadDir, Prod.mk.injEq]
    constructor <;> ring

/-- Witness for C7 at `p0 = (0,0)`, `p1 = (-1,7)`: the tangent is
`(-8, 6)` with norm `10`, and the arrowhead of length 5 terminates at
`(-1, 7)`. -/
theorem arrow_head_terminates_at_destination_witness :
    ((arrowHeadPos (0, 0) (-1, 7) 10 5).1 + (arrowHeadDir (0, 0) (-1, 7) 10).1 * 5,
     (arrowHeadPos (0, 0) (-1, 7) 10 5).2 + (arrowHeadDir (0, 0) (-1, 7) 10).2 * 5)
      = ((-1 : ℚ), (7 : ℚ)) :=
  (arrow_head_terminates_at_destination (0, 0) (-1, 7) 10 5
    (by norm_num [arrowDerivNormSq, arrowDeriv, arrowCtrl]) (by norm_num)).2.2.2

/-- C6: on the spec's example instruction, the `kitchen_0` phrase matches
no instruction word, the `fridge_0` phrase matches exactly one, and the
room's relevance score is exactly 1. -/
theorem relevance_score_substring_example :
    substrScore (phraseOf "kitchen_0") (keywordsOf "put the apple in the fridge") = 0 ∧
    substrScore (phraseOf "fridge_0") (keywordsOf "put the apple in the fridge") = 1 ∧
    roomRelevance "put the apple in the fridge" kitchenRoom = 1 := by decide

/-- Inserting an element whose key equals every key in the list leaves it
in front (earlier elements of the original list were inserted later). -/
theorem insertDescBy_all_eq (key : Room → ℕ) (c : ℕ) (x : Room) (l : List Room)
    (hx : key x = c) (hl : ∀ r ∈ l, key r = c) :
    insertDescBy key x l = x :: l := by
  cases l with
  | nil => rfl
  | cons y ys =>
    have hy : key y ≤ key x := by rw [hx, hl y (by simp)]
    simp [insertDescBy, hy]

/-- A stable descending sort of an all-equal-key list is the identity. -/
theorem sortDescBy_all_eq (key : Room → ℕ) (c : ℕ) (l : List Room)
    (hl : ∀ r ∈ l, key r = c) : sortDescBy key l = l := by
  induction l with
  | nil => rfl
  | cons x xs ih =>
    rw [sortDescBy, ih (fun r hr => hl r (List.mem_cons_of_mem _ hr))]
    exact insertDescBy_all_eq key c x xs (hl x (by simp))
      (fun r hr => hl r (List.mem_cons_of_mem _ hr))

/-- C5: `sort_rooms` with an empty instruction returns the room list
unchanged, and with an instruction under which every room scores equally
it also returns the original order (the descending sort is stable). -/
theorem sort_rooms_stable :
    (∀ rooms, sort_rooms rooms "" = rooms) ∧
    (∀ rooms instruction c, (∀ r ∈ rooms, roomRelevance instruction r = c) →
      sort_rooms rooms instruction = rooms) := by
  constructor
  · intro rooms
    simp [sort_rooms]
  · intro rooms instruction c h
    by_cases hi : instruction = ""
    · simp [sort_rooms, hi]
    · simp only [sort_rooms, hi, if_false]
      exact sortDescBy_all_eq _ c rooms h

/-- Witness for C5: two rooms scoring 0 each under `"hello"` keep their
order. -/
theorem sort_rooms_stable_witness :
    sort_rooms [kitchenRoom, bathRoom] "hello" = [kitchenRoom, bathRoom] :=
  sort_rooms_stable.2 [kitchenRoom, bathRoom] "hello" 0 (by decide)

/-- C4 counterexample: an `is_next_to` proposition raises
`NotImplementedError` on the temporal-constraint (toposort)
classification path of `Scene.plot`, while the plain
`plot_for_propositions` path accepts it. -/
theorem next_to_raises_on_toposort_path :
    exceptIsOk (classifyToposort [nextToProp]) = false ∧
    exceptIsOk (classifyPlot [nextToProp]) = true := by decide

/-- Dropping a head whose tag is known to be accepted from the
"some proposition has an unknown tag" existential. -/
theorem exists_bad_cons (q : Proposition) (rest : List Proposition)
    (S : List String) (hq : q.function_name ∈ S) :
    (∃ x ∈ q :: rest, x.function_name ∉ S) ↔
    ∃ x ∈ rest, x.function_name ∉ S := by
  constructor
  · rintro ⟨x, hx, hxn⟩
    rcases List.mem_cons.mp hx with rfl | hx1
    · exact absurd hq hxn
    · exact ⟨x, hx1, hxn⟩
  · rintro ⟨x, hx, hxn⟩
    exact ⟨x, List.mem_cons_of_mem _ hx, hxn⟩

/-- Propagating the accumulator: the plain classification errors exactly
when some proposition's tag lies outside the five accepted names. -/
theorem classifyPlotAux_err_iff (props : List Proposition) : ∀ acc,
    exceptIsOk (classifyPlotAux acc props) = false ↔
    ∃ p ∈ props, p.function_name ∉
      (["is_on_top", "is_inside", "is_in_room", "is_on_floor", "is_next_to"] :
        List String) := by
  induction props with
  | nil => intro acc; simp [classifyPlotAux, exceptIsOk]
  | cons p rest ih =>
    intro acc
    simp only [classifyPlotAux]
    by_cases h1 : p.function_name = "is_on_top" ∨ p.function_name = "is_inside"
    · rw [if_pos h1]
      exact (ih _).trans (exists_bad_cons p rest _
        (by rcases h1 with h | h <;> simp [h])).symm
    · rw [if_neg h1]
      by_cases h2 : p.function_name = "is_in_room"
      · rw [if_pos h2]
        exact (ih _).trans (exists_bad_cons p rest _ (by simp [h2])).symm
      · rw [if_neg h2]
        by_cases h3 : p.function_name = "is_on_floor"
        · rw [if_pos h3]
          exact (ih _).trans (exists_bad_cons p rest _ (by simp [h3])).symm
        · rw [if_neg h3]
          by_cases h4 : p.function_name = "is_next_to"
          · rw [if_pos h4]
            exact (ih _).trans (exists_bad_cons p rest _ (by simp [h4])).symm
          · rw [if_neg h4]
            push_neg at h1
            refine iff_of_true rfl ⟨p, List.mem_cons_self p rest, ?_⟩
            simp [h1.1, h1.2, h2, h3, h4]

/-- Propagating the accumulator: the toposort-path classification errors
exactly when some proposition's tag lies outside the FOUR accepted names
(`is_next_to` is not among them). -/
theorem classifyToposortAux_err_iff (props : List Proposition) : ∀ acc,
    exceptIsOk (classifyToposortAux acc props) = false ↔
    ∃ p ∈ props, p.function_name ∉
      (["is_on_top", "is_inside", "is_in_room", "is_on_floor"] : List String) := by
  induction props with
  | nil => intro acc; simp [classifyToposortAux, exceptIsOk]
  | cons p rest ih =>
    intro acc
    simp only [classifyToposortAux]
    by_cases h1 : p.function_name = "is_on_top" ∨ p.function_name = "is_inside"
    · rw [if_pos h1]
      exact (ih _).trans (exists_bad_cons p rest _
        (by rcases h1 with h | h <;> simp [h])).symm
    · rw [if_neg h1]
      by_cases h2 : p.function_name = "is_in_room"
      · rw [if_pos h2]
        exact (ih _).trans (exists_bad_cons p rest _ (by simp [h2])).symm
      · rw [if_neg h2]
        by_cases h3 : p.function_name = "is_on_floor"
        · rw [if_pos h3]
          exact (ih _).trans (exists_bad_cons p rest _ (by simp [h3])).symm
        · rw [if_neg h3]
          push_neg at h1
          refine iff_of_true rfl ⟨p, List.mem_cons_self p rest, ?_⟩
          simp [h1.1, h1.2, h2, h3]

/-- C4 (amended): the plain `plot_for_propositions` classification raises
exactly when some proposition's `function_name` lies outside
`{is_on_top, is_inside, is_in_room, is_on_floor, is_next_to}` (with
`is_next_to` accumulated for the legend, not rejected), while the
temporal-constraint path of `Scene.plot` raises exactly when some tag
lies outside `{is_on_top, is_inside, is_in_room, is_on_floor}` — on that
path `is_next_to` raises as well. -/
theorem classification_errors_iff_unknown_name : ∀ props : List Proposition,
    (exceptIsOk (classifyPlot props) = false ↔
      ∃ p ∈ props, p.function_name ∉
        (["is_on_top", "is_inside", "is_in_room", "is_on_floor", "is_next_to"] :
          List String)) ∧
    (exceptIsOk (classifyToposort props) = false ↔
      ∃ p ∈ props, p.function_name ∉
        (["is_on_top", "is_inside", "is_in_room", "is_on_floor"] : List String)) :=
  fun props => ⟨classifyPlotAux_err_iff props _, classifyToposortAux_err_iff props _⟩

/-- The reset pass errors whenever some room's `objects` is `None`. -/
theorem resetFlagsPass_error_of_none (rooms : List Room)
    (h : ∃ r ∈ rooms, r.objects = none) :
    exceptIsOk (resetFlagsPass rooms) = false := by
  induction rooms with
  | nil => simp at h
  | cons room rest ih =>
    obtain ⟨r, hr, hnone⟩ := h
    rcases List.mem_cons.mp hr with rfl | hr1
    · simp [resetFlagsPass, hnone, exceptIsOk]
    · cases hobj : room.objects with
      | none => simp [resetFlagsPass, hobj, exceptIsOk]
      | some objs =>
        have hrest := ih ⟨r, hr1, hnone⟩
        rw [resetFlagsPass]
        cases hrec : resetFlagsPass rest with
        | error e => simp [hobj, hrec, exceptIsOk]
        | ok l => rw [hrec] at hrest; simp [exceptIsOk] at hrest

/-- C10: a scene containing a room whose `objects` field is `None` makes
`plot_for_propositions` raise for every proposition list: the flag-reset
pass iterates `room.objects` unconditionally (scene.py line 509). -/
theorem plot_for_propositions_none_objects_error :
    ∀ rooms props, (∃ r ∈ rooms, r.objects = none) →
    exceptIsOk (plotForPropositionsPre rooms props) = false := by
  intro rooms props h
  obtain ⟨r, hr, hnone⟩ := h
  unfold plotForPropositionsPre
  cases hc : classifyPlot props with
  | error e => simp [exceptIsOk]
  | ok m =>
    apply resetFlagsPass_error_of_none
    refine ⟨_, List.mem_map_of_mem
      (fun room => if room.room_id ∈ m.mentioned_rooms then
        { room with plot_placeholder := true }
      else { room with plot_placeholder := false }) hr, ?_⟩
    by_cases hmem : r.room_id ∈ m.mentioned_rooms <;> simp [hmem, hnone]

/-- Witness for C10: a one-room scene with `objects = None` and an empty
proposition list errors. -/
theorem plot_for_propositions_none_objects_error_witness :
    exceptIsOk (plotForPropositionsPre [bareRoom "hall_0" [] none 0] []) = false :=
  plot_for_propositions_none_objects_error [bareRoom "hall_0" [] none 0] []
    ⟨bareRoom "hall_0" [] none 0, by simp, rfl⟩

/-- C8: a room with objects has `use_full_height = true` at construction
regardless of the constructor argument, and neither row-flush variant
nor `Room.plot` ever makes it false for a room that itself has objects
(`Room.plot` does not touch the flag at all). -/
theorem use_full_height_forced_invariant :
    (∀ cfg rid receps objs ufh inprop o2r, objectsTruthy objs = true →
      (mkRoom cfg rid receps objs ufh inprop o2r).use_full_height = true) ∧
    (∀ rooms r1, r1 ∈ setRowUseFullHeight rooms →
      objectsTruthy r1.objects = true → r1.use_full_height = true) ∧
    (∀ cfg rooms r1, r1 ∈ setRowUseFullHeightInit cfg rooms →
      objectsTruthy r1.objects = true → r1.use_full_height = true) ∧
    (∀ cfg r pos tw r1, roomPlot cfg r pos tw = some r1 →
      r1.use_full_height = r.use_full_height) := by
  refine ⟨?_, ?_, ?_, ?_⟩
  · intro cfg rid receps objs ufh inprop o2r h
    simp [mkRoom, initSize, h]
  · intro rooms r1 h1 hobj
    simp only [setRowUseFullHeight] at h1
    obtain ⟨r0, hr0, rfl⟩ := List.mem_map.mp h1
    cases hany : rooms.any (fun room => objectsTruthy room.objects) with
    | true => simp [hany]
    | false =>
      exfalso
      rw [hany] at hobj
      simp only [Bool.false_eq_true, if_false] at hobj
      have : objectsTruthy r0.objects = true := hobj
      have hex : rooms.any (fun room => objectsTruthy room.objects) = true :=
        List.any_eq_true.mpr ⟨r0, hr0, this⟩
      rw [hany] at hex
      exact Bool.false_ne_true hex
  · intro cfg rooms r1 h1 hobj
    simp only [setRowUseFullHeightInit] at h1
    obtain ⟨r0, hr0, rfl⟩ := List.mem_map.mp h1
    cases hany : rooms.any (fun room => objectsTruthy room.objects) with
    | true => simp [hany, initSize]
    | false =>
      exfalso
      rw [hany] at hobj
      simp only [Bool.false_eq_true, if_false, initSize] at hobj
      have : objectsTruthy r0.objects = true := hobj
      have hex : rooms.any (fun room => objectsTruthy room.objects) = true :=
        List.any_eq_true.mpr ⟨r0, hr0, this⟩
      rw [hany] at hex
      exact Bool.false_ne_true hex
  · intro cfg r pos tw r1 h
    simp only [roomPlot] at h
    split at h
    · split at h
      · exact absurd h (by simp)
      · rw [Option.some.injEq] at h
        subst h
        rfl
    · rw [Option.some.injEq] at h
      subst h
      rfl

/-- Evaluation of `roomPlot` at the concrete example room. -/
theorem roomPlot_ex_eval : roomPlot cfg0 exRoom9 (0, 0) none = some exRoom9Plotted := by
  simp only [roomPlot, exRoom9, exRoom9Plotted, bareRoom, cfg0, objectsTruthy,
    plotReceptacles, List.map_nil, List.sum_nil, List.length_nil]
  norm_num

/-- Witness for C8: a room built with objects and `use_full_height=False`
still carries the flag, and `roomPlot` leaves the flag of the example
room unchanged. -/
theorem use_full_height_forced_invariant_witness :
    (mkRoom cfg0 "bedroom_0" [] (some [bareObj "apple_0"]) false false
      none).use_full_height = true ∧
    exRoom9Plotted.use_full_height = exRoom9.use_full_height := by
  constructor
  · exact use_full_height_forced_invariant.1 cfg0 "bedroom_0" []
      (some [bareObj "apple_0"]) false false none (by decide)
  · exact use_full_height_forced_invariant.2.2.2 cfg0 exRoom9 (0, 0) none
      exRoom9Plotted roomPlot_ex_eval

/-! ## Idempotence of `Room.plot` (C9): child-level lemmas -/

@[simp] theorem plotR_width (rc : Receptacle) (p : ℚ × ℚ) :
    (plotR rc p).width = rc.width := rfl

@[simp] theorem plotR_id (rc : Receptacle) (p : ℚ × ℚ) :
    (plotR rc p).receptacle_id = rc.receptacle_id := rfl

@[simp] theorem recepStatics_plotR (rc : Receptacle) (p : ℚ × ℚ) :
    recepStatics (plotR rc p) = recepStatics rc := rfl

@[simp] theorem plotO_id (cfg : Config) (o : Object) (p : ℚ × ℚ) :
    (plotO cfg o p).object_id = o.object_id := rfl

@[simp] theorem objStatics_plotO (cfg : Config) (o : Object) (p : ℚ × ℚ) :
    objStatics (plotO cfg o p) = objStatics o := rfl

/-- Re-plotting a receptacle overwrites all fields the first plot set. -/
theorem plotR_plotR (rc : Receptacle) (p q : ℚ × ℚ) :
    plotR (plotR rc p) q = plotR rc q := by
  simp [plotR]

/-- Re-plotting an object overwrites all fields the first plot set. -/
theorem plotO_plotO (cfg : Config) (o : Object) (p q : ℚ × ℚ) :
    plotO cfg (plotO cfg o p) q = plotO cfg o q := by
  simp [plotO]

/-- `plotR` depends only on a receptacle's static fields. -/
theorem plotR_congr (rc rc' : Receptacle) (p : ℚ × ℚ)
    (h : recepStatics rc' = recepStatics rc) : plotR rc' p = plotR rc p := by
  obtain ⟨i, w, hh, f1, f2, t, c, n⟩ := rc
  obtain ⟨i', w', hh', f1', f2', t', c', n'⟩ := rc'
  simp only [recepStatics, Prod.mk.injEq] at h
  obtain ⟨h1, h2, h3, h4, h5⟩ := h
  subst h1; subst h2; subst h3; subst h4; subst h5
  simp [plotR]

/-- The receptacle placement fold preserves static fields. -/
theorem plotReceptacles_statics (s y : ℚ) (l : List Receptacle) : ∀ off,
    (plotReceptacles s y off l).map recepStatics = l.map recepStatics := by
  induction l with
  | nil => intro off; rfl
  | cons rc rest ih => intro off; simp [plotReceptacles, ih]

/-- The receptacle placement fold depends only on static fields. -/
theorem plotReceptacles_congr (l : List Receptacle) :
    ∀ (l' : List Receptacle), l'.map recepStatics = l.map recepStatics →
    ∀ s y off, plotReceptacles s y off l' = plotReceptacles s y off l := by
  induction l with
  | nil =>
    intro l' h s y off
    have h1 : l'.map recepStatics = [] := by simpa using h
    rw [List.map_eq_nil_iff.mp h1]
  | cons rc rest ih =>
    intro l' h s y off
    cases l' with
    | nil => simp at h
    | cons rc' rest' =>
      simp only [List.map_cons, List.cons.injEq] at h
      obtain ⟨hh, ht⟩ := h
      have hw : rc'.width = rc.width := congrArg (fun t => t.2.1) hh
      rw [plotReceptacles, plotReceptacles, plotR_congr rc rc' _ hh, hw,
        ih rest' ht]

/-- Widths agree whenever static fields agree. -/
theorem map_width_of_statics (l l' : List Receptacle)
    (h : l'.map recepStatics = l.map recepStatics) :
    l'.map Receptacle.width = l.map Receptacle.width := by
  have h2 := congrArg
    (List.map (fun t : String × ℚ × ℚ × Bool × Bool => t.2.1)) h
  simpa [List.map_map, Function.comp, recepStatics] using h2

/-- Lengths agree whenever static fields agree. -/
theorem length_of_statics (l l' : List Receptacle)
    (h : l'.map recepStatics = l.map recepStatics) : l'.length = l.length := by
  have h2 := congrArg List.length h
  simpa using h2

@[simp] theorem plotReceptacles_widths (s y : ℚ) (l : List Receptacle) (off : ℚ) :
    (plotReceptacles s y off l).map Receptacle.width = l.map Receptacle.width :=
  map_width_of_statics l _ (plotReceptacles_statics s y l off)

@[simp] theorem plotReceptacles_length (s y : ℚ) (l : List Receptacle) (off : ℚ) :
    (plotReceptacles s y off l).length = l.length :=
  length_of_statics l _ (plotReceptacles_statics s y l off)

/-- Re-running the receptacle fold on its own output is the same as
running it on the original receptacles. -/
@[simp] theorem plotReceptacles_plotReceptacles (s y off s2 y2 off2 : ℚ)
    (l : List Receptacle) :
    plotReceptacles s2 y2 off2 (plotReceptacles s y off l)
      = plotReceptacles s2 y2 off2 l :=
  plotReceptacles_congr l _ (plotReceptacles_statics s y l off) s2 y2 off2

/-- A successful object pass preserves object statics and receptacle
statics. -/
theorem plotObjects_some (cfg : Config) (o2r : Option (List (String × String)))
    (s y : ℚ) : ∀ objs off recs objs1 recs1,
    plotObjects cfg o2r s y off recs objs = some (objs1, recs1) →
    objs1.map objStatics = objs.map objStatics ∧
    recs1.map recepStatics = recs.map recepStatics := by
  intro objs
  induction objs with
  | nil =>
    intro off recs objs1 recs1 h
    rw [plotObjects] at h
    simp only [Option.some.injEq, Prod.mk.injEq] at h
    obtain ⟨h1, h2⟩ := h
    subst h1; subst h2
    exact ⟨rfl, rfl⟩
  | cons obj rest ih =>
    intro off recs objs1 recs1 h
    rw [plotObjects] at h
    cases hm : mappedRecep o2r obj.object_id with
    | none =>
      rw [hm] at h
      cases hrec : plotObjects cfg o2r s y (off + cfg.object.width + s) recs rest with
      | none => rw [hrec] at h; cases h
      | some pr =>
        rw [hrec] at h
        simp only [Option.map_some', Option.some.injEq, Prod.mk.injEq] at h
        obtain ⟨h1, h2⟩ := h
        obtain ⟨hids, hst⟩ := ih _ recs pr.1 pr.2 (by rw [hrec])
        subst h1; subst h2
        simp [hids, hst]
    | some rid =>
      simp only [hm] at h
      exact Option.noConfusion h

/-- Re-running the object pass on its own output, from the same offset
and the same (pre-pass) receptacle list, reproduces the output. -/
theorem plotObjects_idem (cfg : Config) (o2r : Option (List (String × String)))
    (s y : ℚ) : ∀ objs off recs objs1 recs1,
    plotObjects cfg o2r s y off recs objs = some (objs1, recs1) →
    plotObjects cfg o2r s y off recs objs1 = some (objs1, recs1) := by
  intro objs
  induction objs with
  | nil =>
    intro off recs objs1 recs1 h
    rw [plotObjects] at h
    simp only [Option.some.injEq, Prod.mk.injEq] at h
    obtain ⟨h1, h2⟩ := h
    subst h1; subst h2
    rfl
  | cons obj rest ih =>
    intro off recs objs1 recs1 h
    rw [plotObjects] at h
    cases hm : mappedRecep o2r obj.object_id with
    | none =>
      rw [hm] at h
      cases hrec : plotObjects cfg o2r s y (off + cfg.object.width + s) recs rest with
      | none => rw [hrec] at h; cases h
      | some pr =>
        rw [hrec] at h
        simp only [Option.map_some', Option.some.injEq, Prod.mk.injEq] at h
        obtain ⟨h1, h2⟩ := h
        subst h1; subst h2
        rw [plotObjects, plotO_id, hm, plotO_plotO,
          ih _ recs pr.1 pr.2 (by rw [hrec])]
        rfl
    | some rid =>
      simp only [hm] at h
      exact Option.noConfusion h

/-- The unmapped-width sum depends only on object ids. -/
theorem objectWidthsUnmapped_congr (cfg : Config)
    (o2r : Option (List (String × String))) (objs objs' : List Object)
    (h : objs'.map objStatics = objs.map objStatics) :
    objectWidthsUnmapped cfg o2r objs' = objectWidthsUnmapped cfg o2r objs := by
  have e : ∀ l : List Object, objectWidthsUnmapped cfg o2r l =
      (l.map objStatics).foldl
        (fun acc st =>
          match mappedRecep o2r st.1 with
          | some _ => acc
          | none => acc + cfg.object.width) 0 := by
    intro l
    unfold objectWidthsUnmapped
    rw [List.foldl_map]
    rfl
  rw [e, e, h]

/-- The unmapped-object count depends only on object ids. -/
theorem countUnmapped_congr (o2r : Option (List (String × String)))
    (objs objs' : List Object)
    (h : objs'.map objStatics = objs.map objStatics) :
    countUnmapped o2r objs' = countUnmapped o2r objs := by
  have e : ∀ l : List Object, countUnmapped o2r l =
      (l.map objStatics).foldl
        (fun acc st =>
          match mappedRecep o2r st.1 with
          | some _ => acc
          | none => acc + 1) 0 := by
    intro l
    unfold countUnmapped
    rw [List.foldl_map]
    rfl
  rw [e, e, h]

/-- C9: on a room with an object mapped to a receptacle, `Room.plot`
does not complete — room.py line 273 reads `obj.text_position`, which
`Object.plot` never stores, raising `AttributeError` — so no anchor
outputs are produced on that path (first conjunct, evaluated at a
concrete mapped room).  On every room on which `Room.plot` completes,
re-plotting with the same position and target width reproduces the room
exactly, so `center_position` and every child object's center anchor
are unchanged by the second call (second conjunct). -/
theorem room_plot_idempotent :
    roomPlot cfg0 exMappedRoom (0, 0) none = none ∧
    (∀ cfg r pos tw r1, roomPlot cfg r pos tw = some r1 →
      roomPlot cfg r1 pos tw = some r1) := by
  refine ⟨by decide, ?_⟩
  intro cfg r pos tw r1 h
  cases hobj : objectsTruthy r.objects with
  | false =>
    simp only [roomPlot, hobj, Bool.false_eq_true, if_false] at h
    rw [Option.some.injEq] at h
    subst h
    simp only [roomPlot, hobj, Bool.false_eq_true, if_false,
      plotReceptacles_widths, plotReceptacles_length,
      plotReceptacles_plotReceptacles]
  | true =>
    simp only [roomPlot, hobj, eq_self_iff_true, if_true] at h
    split at h
    · exact Option.noConfusion h
    · rename_i objs1 recs2 heq
      rw [Option.some.injEq] at h
      subst h
      obtain ⟨hoids, hrst⟩ :=
        plotObjects_some cfg r.object_to_recep _ _ _ _ _ _ _ heq
      have hst2 : recs2.map recepStatics = r.receptacles.map recepStatics :=
        hrst.trans (plotReceptacles_statics _ _ _ _)
      have hw2 : recs2.map Receptacle.width = r.receptacles.map Receptacle.width :=
        map_width_of_statics _ _ hst2
      have hln2 : recs2.length = r.receptacles.length :=
        length_of_statics _ _ hst2
      have hpr2 : ∀ s y off, plotReceptacles s y off recs2
          = plotReceptacles s y off r.receptacles :=
        plotReceptacles_congr r.receptacles recs2 hst2
      have hwob : objectWidthsUnmapped cfg r.object_to_recep objs1
          = objectWidthsUnmapped cfg r.object_to_recep (r.objects.getD []) :=
        objectWidthsUnmapped_congr cfg r.object_to_recep _ _ hoids
      have hcob : countUnmapped r.object_to_recep objs1
          = countUnmapped r.object_to_recep (r.objects.getD []) :=
        countUnmapped_congr r.object_to_recep _ _ hoids
      have hidm := plotObjects_idem cfg r.object_to_recep _ _ _ _ _ _ _ heq
      have htr : objectsTruthy (some objs1) = true := by
        have hlen1 : objs1.length = (r.objects.getD []).length := by
          simpa using congrArg List.length hoids
        cases hro : r.objects with
        | none => rw [hro] at hobj; simp [objectsTruthy] at hobj
        | some l =>
          rw [hro] at hobj hlen1
          simp only [objectsTruthy, Option.getD_some] at hobj hlen1 ⊢
          cases objs1 with
          | nil =>
            cases l with
            | nil => simp at hobj
            | cons a as => simp at hlen1
          | cons a as => rfl
      simp only [roomPlot, htr, eq_self_iff_true, if_true, Option.getD_some,
        hwob, hcob, hw2, hln2, hpr2, hidm]

/-- Evaluation of `roomPlot` at the receptacle-and-object example room. -/
theorem roomPlotFull_eval :
    roomPlot cfg0 exRoomFull (0, 0) none = some exRoomFullPlotted := by
  simp only [roomPlot, exRoomFull, exRoomFullPlotted, bareRoom, bareRecep,
    bareObj, cfg0, objectsTruthy, objectWidthsUnmapped, countUnmapped,
    mappedRecep, plotReceptacles, plotObjects, plotR, plotO, List.foldl,
    List.map_cons, List.map_nil, List.sum_cons, List.sum_nil,
    List.length_cons, List.length_nil, Option.getD_some]
  norm_num

/-- Witness for C9: re-plotting the plotted example room reproduces it. -/
theorem room_plot_idempotent_witness :
    roomPlot cfg0 exRoomFullPlotted (0, 0) none = some exRoomFullPlotted :=
  room_plot_idempotent.2 cfg0 exRoomFull (0, 0) none exRoomFullPlotted
    roomPlotFull_eval

end RearrangeViz
